import Mathlib

/-!
# notify-me: GitHub webhook to Slack relay

A shallow embedding of `main.go`: the rule tables, the request handler
`ParseGithubPayload` and the message builder `SendToSlack`.

Conventions of the embedding.

* Go strings are embedded as Lean strings, one character per byte (headers,
  rule tables and format literals are ASCII text).
* `int64` identifiers are embedded as `Int`; they are only compared and
  printed, never computed with.
* `interface{}` values are embedded as sum types with one constructor per
  dynamic type the handler distinguishes, plus one for every other type.
* The two global rule tables are passed to the handler explicitly, as are the
  values of the environment variables `SECRET` and `SLACK_WEBHOOK_URL`.
* The outbound HTTP POST at the end of `SendToSlack` is observed through
  `Outcome.sent`, to which a message is appended when its POST returns
  without error; every entry to `SendToSlack` is recorded in `Outcome.calls`.
* Whether `json.Marshal`, `http.NewRequest` and `http.DefaultClient.Do`
  return an error is a parameter of the handler (`Extern`); each of the three
  errors makes `SendToSlack` panic, as in the source.
* A Go `panic` ends the handler; the messages posted before it stay posted.
-/

set_option autoImplicit false

namespace NotifyMe

/-! ## Rule tables (main.go 17-37) -/

/-- Mention rule, `type Notify struct`. -/
structure Notify where
  Mention : String
  Channel : String
  deriving DecidableEq, Repr

/-- Project column rule, `type ProjectNotify struct`. -/
structure ProjectNotify where
  ProjectId : Int
  ColumnId : Int
  ColumnName : String
  Channel : String
  deriving DecidableEq, Repr

/-- The configured mention rules, `var notifies`. -/
def notifies : List Notify :=
  [{ Mention := "@andrkrn", Channel := "#id-andrkrn" }]

/-- The configured project column rules, `var project_notifies`. -/
def project_notifies : List ProjectNotify :=
  [{ ColumnId := 13982492, ColumnName := "QA Test", Channel := "#id-andrkrn", ProjectId := 1 }]

/-! ## Event payloads -/

/-- The fields of `Issue` read by the handler. -/
structure Issue where
  HTMLURL : String
  Title : String
  Body : String
  deriving DecidableEq, Repr

/-- The fields of `Comment` read by the handler. -/
structure Comment where
  HTMLURL : String
  Body : String
  deriving DecidableEq, Repr

/-- The part of `github.IssuesPayload` read by the handler. -/
structure IssuesPayload where
  Issue : Issue
  deriving DecidableEq, Repr

/-- The part of `github.IssueCommentPayload` read by the handler. -/
structure IssueCommentPayload where
  Issue : Issue
  Comment : Comment
  deriving DecidableEq, Repr

/-- Modelled from the spec: the field `Repository` of
`types.ProjectCardPayloadPatch`; the package `types` is not among the
sources, the handler reads `Repository.FullName`. -/
structure Repository where
  FullName : String
  deriving DecidableEq, Repr

/-- Modelled from the spec: the field `ProjectCard` of
`types.ProjectCardPayloadPatch` (card id and column id of the moved card);
the handler reads `ProjectCard.ID` and `ProjectCard.ColumnID`. -/
structure ProjectCard where
  ID : Int
  ColumnID : Int
  deriving DecidableEq, Repr

/-- Modelled from the spec: the type `types.ProjectCardPayloadPatch`, whose
declaration is not among the sources: repository full name, card id and
column id of a moved project card. -/
structure ProjectCardPayloadPatch where
  Repository : Repository
  ProjectCard : ProjectCard
  deriving DecidableEq, Repr

/-- A value of `var payload interface{}`: one constructor for each case of the
type switches, and `other` for a value of any other dynamic type. -/
inductive PayloadValue where
  | issues (res : IssuesPayload)
  | issueComment (res : IssueCommentPayload)
  | projectCard (res : ProjectCardPayloadPatch)
  | other
  deriving DecidableEq, Repr

/-- A value of the parameter `notify interface{}` of `SendToSlack`. -/
inductive NotifyValue where
  | notify (res : Notify)
  | projectNotify (res : ProjectNotify)
  | other
  deriving DecidableEq, Repr

/-! ## Slack message (main.go 107-126) -/

/-- Attachment field, `type Field struct`. -/
structure Field where
  Title : String
  Value : String
  Short : Bool
  deriving DecidableEq, Repr

/-- Message attachment, `type Attachment struct`. -/
structure Attachment where
  Fallback : String
  Pretext : String
  Color : String
  Fields : List Field
  deriving DecidableEq, Repr

/-- Slack message, `type Payload struct`. -/
structure Payload where
  Username : String
  Channel : String
  Text : String
  IconEmoji : String
  Attachments : List Attachment
  deriving DecidableEq, Repr

/-! ## Errors and panics -/

/-- The error values the handler can meet: the errors returned by
`Webhook.Parse`, a JSON decoding error, and the errors of the three calls that
post a message (`json.Marshal`, `http.NewRequest`, `http.DefaultClient.Do`). -/
inductive GoError where
  | ErrEventNotSpecifiedToParse
  | ErrInvalidHTTPMethod
  | ErrMissingGithubEventHeader
  | ErrEventNotFound
  | ErrParsingPayload
  | ErrMissingHubSignatureHeader
  | ErrHMACVerificationFailed
  | jsonUnmarshal
  | jsonMarshal
  | httpNewRequest
  | clientDo
  deriving DecidableEq, Repr

/-- The value a `panic` carries. -/
inductive GoPanic where
  | error (err : GoError)
  | message (s : String)
  | typeAssertion
  | sliceBounds
  deriving DecidableEq, Repr

/-- How the handler ended. -/
inductive Status where
  | returned
  | panicked (p : GoPanic)
  deriving DecidableEq, Repr

/-- The observable run of one handler invocation: the calls of `SendToSlack`
entered, the messages whose POST returned without error, and how the handler
ended. -/
structure Outcome where
  calls : List (PayloadValue × NotifyValue)
  sent : List Payload
  status : Status
  deriving DecidableEq, Repr

/-! ## Library functions -/

/-- Whether `sub` is a prefix of `s`, `strings.HasPrefix` on byte lists. -/
def hasPrefix : List Char → List Char → Bool
  | _, [] => true
  | [], _ :: _ => false
  | c :: s, d :: sub => c == d && hasPrefix s sub

/-- Search of `sub` at every position of `s`, left to right. -/
def containsAt : List Char → List Char → Bool
  | [], sub => hasPrefix [] sub
  | c :: s, sub => hasPrefix (c :: s) sub || containsAt s sub

/-- The function `strings.Contains(s, substr)`: whether `substr` is within `s`. -/
def Contains (s substr : String) : Bool :=
  containsAt s.data substr.data

/-- The verb `%v` of `fmt.Sprintf` at an `int64`: its decimal representation. -/
def formatInt (n : Int) : String :=
  toString n

/-! ## The inbound request and its environment -/

/-- The parts of `*http.Request` the handler reads. `Body` is `none` when
reading the body stream fails. -/
structure Request where
  Method : String
  XGitHubEvent : String
  XHubSignature : String
  Body : Option String

/-- Functions of the Go standard library that are not embedded, and the
network: the HMAC-SHA1 of a payload under a key, in hexadecimal;
`json.Unmarshal` into each of the three payload types (`none` when it returns
an error); `json.Marshal` of a message (`none` when it returns an error);
whether `http.NewRequest(method, url, body)` returns a request for this method
and URL; and whether `http.DefaultClient.Do` returns without error for the
POST of a body to a URL, which may differ from one call of `SendToSlack` to
the next: its first argument is the number of calls of `SendToSlack` entered
before this one. -/
structure Extern where
  hmacSha1Hex : String → String → String
  unmarshalIssues : String → Option IssuesPayload
  unmarshalIssueComment : String → Option IssueCommentPayload
  unmarshalProjectCard : String → Option ProjectCardPayloadPatch
  jsonMarshal : Payload → Option String
  httpNewRequest : String → String → Bool
  clientDo : Nat → String → String → Bool

/-! ## The webhook library

`ParseGithubPayload` calls `github.New` and `Webhook.Parse` of the package
`gopkg.in/go-playground/webhooks.v5/github`. The package is a dependency: its
source is not part of the repository, and the two functions are embedded
here as version 5 of the package behaves. -/

/-- The receiver `github.Webhook`: it holds the secret. -/
structure Webhook where
  secret : String

/-- The call `github.New(github.Options.Secret(secret))`: the option stores the
secret and returns no error. -/
def New (secret : String) : Except GoError Webhook :=
  .ok { secret := secret }

/-- The event names `github.IssuesEvent`, `github.IssueCommentEvent` and
`github.ProjectCardEvent`. -/
def IssuesEvent : String := "issues"

/-- See `IssuesEvent`. -/
def IssueCommentEvent : String := "issue_comment"

/-- See `IssuesEvent`. -/
def ProjectCardEvent : String := "project_card"

/-- The signature check of `Webhook.Parse`: when the hook has a secret, the
signature header must be present and `signature[5:]` (the header without
`sha1=`) must equal the HMAC of the body under the secret. The result is the
error to return, if any; the slice panics on a header shorter than five
bytes. -/
def checkMAC (ext : Extern) (hook : Webhook) (r : Request) (payload : String) :
    Except GoPanic (Option GoError) :=
  if hook.secret.length > 0 then
    let signature := r.XHubSignature
    if signature.length == 0 then .ok (some .ErrMissingHubSignatureHeader)
    else if signature.length < 5 then .error .sliceBounds
    else if signature.drop 5 != ext.hmacSha1Hex hook.secret payload then
      .ok (some .ErrHMACVerificationFailed)
    else .ok none
  else .ok none

/-- The final switch of `Webhook.Parse`: the body is decoded into the payload
type of the event. Only the cases of the two events the handler asks for are
embedded. -/
def unmarshalEvent (ext : Extern) (event : String) (payload : String) :
    Except GoError PayloadValue :=
  if event == IssueCommentEvent then
    match ext.unmarshalIssueComment payload with
    | some pl => .ok (.issueComment pl)
    | none => .error .jsonUnmarshal
  else if event == IssuesEvent then
    match ext.unmarshalIssues payload with
    | some pl => .ok (.issues pl)
    | none => .error .jsonUnmarshal
  else .ok .other

/-- The method `Webhook.Parse(r, events...)` of the package
`gopkg.in/go-playground/webhooks.v5/github`, a dependency of the repository.
In order: the list of events must not be empty, the method must be POST, the
event header must be present and among `events`, the body must be readable
and not empty, the signature must pass `checkMAC`; then the body is decoded.
The outer result is a panic inside `Parse`, the inner one the returned
`error`. -/
def Parse (ext : Extern) (hook : Webhook) (r : Request) (events : List String) :
    Except GoPanic (Except GoError PayloadValue) :=
  if events.isEmpty then .ok (.error .ErrEventNotSpecifiedToParse)
  else if r.Method != "POST" then .ok (.error .ErrInvalidHTTPMethod)
  else
    let event := r.XGitHubEvent
    if event == "" then .ok (.error .ErrMissingGithubEventHeader)
    else if !events.contains event then .ok (.error .ErrEventNotFound)
    else
      match r.Body with
      | none => .ok (.error .ErrParsingPayload)
      | some payload =>
        if payload.length == 0 then .ok (.error .ErrParsingPayload)
        else
          match checkMAC ext hook r payload with
          | .error p => .error p
          | .ok (some err) => .ok (.error err)
          | .ok none => .ok (unmarshalEvent ext event payload)

/-! ## SendToSlack (main.go 128-193) -/

/-- The message `data` that `SendToSlack` builds (lines 129-172); the type
assertion `notify.(ProjectNotify)` panics when `notify` holds another type. -/
def buildMessage (payload : PayloadValue) (notify : NotifyValue) : Except GoPanic Payload :=
  let data : Payload :=
    { Username := "Github Notification", IconEmoji := ":github:",
      Channel := "", Text := "", Attachments := [] }
  let data :=
    match notify with
    | .notify res => { data with Channel := res.Channel }
    | .projectNotify res => { data with Channel := res.Channel }
    | .other => data
  match payload with
  | .issues res =>
    .ok { data with
      Text := "<" ++ res.Issue.HTMLURL ++ "|" ++ res.Issue.Title ++ ">"
      Attachments := [{
        Fallback := "You have been mentioned"
        Pretext := ""
        Color := "warning"
        Fields := [{ Title := "", Value := res.Issue.Body, Short := false }] }] }
  | .issueComment res =>
    .ok { data with
      Text := "<" ++ res.Comment.HTMLURL ++ "|" ++ res.Issue.Title ++ ">"
      Attachments := [{
        Fallback := "You have been mentioned"
        Pretext := ""
        Color := "warning"
        Fields := [{ Title := "", Value := res.Comment.Body, Short := false }] }] }
  | .projectCard res =>
    match notify with
    | .projectNotify notifyRes =>
      let url := "https://github.com/" ++ res.Repository.FullName ++ "/projects/" ++
        formatInt notifyRes.ProjectId ++ "#card-" ++ formatInt res.ProjectCard.ID
      .ok { data with Text := "<" ++ url ++ "|This issue> just moved to " ++ notifyRes.ColumnName }
    | _ => .error .typeAssertion
  | .other => .ok data

/-- The function `SendToSlack(payload, notify)` run on the outcome so far: the
call is recorded and the message built (lines 129-172); then the message is
marshalled, the request made and posted (lines 174-191), and each of the three
steps panics on its error. The message is appended to `sent` when the POST
returned without error. -/
def SendToSlack (ext : Extern) (SLACK_WEBHOOK_URL : String) (payload : PayloadValue)
    (notify : NotifyValue) (o : Outcome) : Outcome :=
  let earlier := o.calls.length
  let o := { o with calls := o.calls ++ [(payload, notify)] }
  match buildMessage payload notify with
  | .error p => { o with status := .panicked p }
  | .ok data =>
    match ext.jsonMarshal data with
    | none => { o with status := .panicked (.error .jsonMarshal) }
    | some payloadBytes =>
      if !ext.httpNewRequest "POST" SLACK_WEBHOOK_URL then
        { o with status := .panicked (.error .httpNewRequest) }
      else if !ext.clientDo earlier SLACK_WEBHOOK_URL payloadBytes then
        { o with status := .panicked (.error .clientDo) }
      else { o with sent := o.sent ++ [data] }

/-! ## ParseGithubPayload (main.go 49-105) -/

/-- The loop `for _, x := range xs { if cond(x) { SendToSlack(res, x) } }`:
a panic in the body leaves the loop. -/
def rangeSend {α : Type} (ext : Extern) (SLACK_WEBHOOK_URL : String) (res : PayloadValue)
    (cond : α → Bool) (wrap : α → NotifyValue) : List α → Outcome → Outcome
  | [], o => o
  | x :: xs, o =>
    if cond x then
      let o := SendToSlack ext SLACK_WEBHOOK_URL res (wrap x) o
      match o.status with
      | .panicked _ => o
      | .returned => rangeSend ext SLACK_WEBHOOK_URL res cond wrap xs o
    else rangeSend ext SLACK_WEBHOOK_URL res cond wrap xs o

/-- Lines 50-81: the payload the handler decodes from the request, or the
panic that ends it. -/
def decodePayload (ext : Extern) (SECRET : String) (r : Request) : Except GoPanic PayloadValue :=
  match New SECRET with
  | .error err => .error (.error err)
  | .ok webhook =>
    let event := r.XGitHubEvent
    let is_project_card := event == ProjectCardEvent
    if is_project_card then
      match r.Body with
      | none => .error (.message "error")
      | some body =>
        if body.length == 0 then .error (.message "error")
        else
          match ext.unmarshalProjectCard body with
          | none => .error (.error .jsonUnmarshal)
          | some pl => .ok (.projectCard pl)
    else
      match Parse ext webhook r [IssuesEvent, IssueCommentEvent] with
      | .error p => .error p
      | .ok (.error err) => .error (.error err)
      | .ok (.ok pl) => .ok pl

/-- Lines 83-104: the type switch on the decoded payload. -/
def dispatch (ext : Extern) (notifies : List Notify) (project_notifies : List ProjectNotify)
    (SLACK_WEBHOOK_URL : String) (payload : PayloadValue) : Outcome :=
  let start : Outcome := { calls := [], sent := [], status := .returned }
  match payload with
  | .issues res =>
    rangeSend ext SLACK_WEBHOOK_URL (.issues res)
      (fun notify => Contains res.Issue.Body notify.Mention)
      NotifyValue.notify notifies start
  | .issueComment res =>
    rangeSend ext SLACK_WEBHOOK_URL (.issueComment res)
      (fun notify => Contains res.Comment.Body notify.Mention)
      NotifyValue.notify notifies start
  | .projectCard res =>
    rangeSend ext SLACK_WEBHOOK_URL (.projectCard res)
      (fun project_notify => res.ProjectCard.ColumnID == project_notify.ColumnId)
      NotifyValue.projectNotify project_notifies start
  | .other => start

/-- The handler `ParseGithubPayload(w, r)`, run with the rule tables and the
values of `SECRET` and `SLACK_WEBHOOK_URL`. -/
def ParseGithubPayload (ext : Extern) (notifies : List Notify)
    (project_notifies : List ProjectNotify) (SECRET SLACK_WEBHOOK_URL : String)
    (r : Request) : Outcome :=
  match decodePayload ext SECRET r with
  | .error p => { calls := [], sent := [], status := .panicked p }
  | .ok payload => dispatch ext notifies project_notifies SLACK_WEBHOOK_URL payload

/-! ## Vocabulary of the statements -/

/-- The string `sub` occurs in `s` as a literal substring: `s` is some
characters, then `sub`, then some characters. -/
def IsSubstring (sub s : String) : Prop :=
  sub.data <:+: s.data

instance instDecidableIsSubstring (sub s : String) : Decidable (IsSubstring sub s) :=
  inferInstanceAs (Decidable (sub.data <:+: s.data))

/-- The text a mention rule is matched against: `Issue.Body` of an issue
event, `Comment.Body` of an issue-comment event. -/
def mentionBody : PayloadValue → Option String
  | .issues res => some res.Issue.Body
  | .issueComment res => some res.Comment.Body
  | _ => none

/-- The rules of a mention table that match a body, in table order. -/
def matchingNotifies (notifies : List Notify) (body : String) : List Notify :=
  notifies.filter (fun n => decide (IsSubstring n.Mention body))

/-- The rules of a project table that match a column, in table order. -/
def matchingProjectNotifies (project_notifies : List ProjectNotify) (columnID : Int) :
    List ProjectNotify :=
  project_notifies.filter (fun n => decide (n.ColumnId = columnID))

/-- The message sent for a mention: a link to `url` titled `title`, and the
body in one attachment. -/
def mentionMessage (channel url title body : String) : Payload :=
  { Username := "Github Notification"
    Channel := channel
    Text := "<" ++ url ++ "|" ++ title ++ ">"
    IconEmoji := ":github:"
    Attachments := [{
      Fallback := "You have been mentioned"
      Pretext := ""
      Color := "warning"
      Fields := [{ Title := "", Value := body, Short := false }] }] }

/-- The address of a card on a project board. -/
def cardURL (fullName : String) (projectId cardId : Int) : String :=
  "https://github.com/" ++ fullName ++ "/projects/" ++ formatInt projectId ++
    "#card-" ++ formatInt cardId

/-- The message sent for a moved project card under a column rule. -/
def cardMessage (res : ProjectCardPayloadPatch) (rule : ProjectNotify) : Payload :=
  { Username := "Github Notification"
    Channel := rule.Channel
    Text := "<" ++ cardURL res.Repository.FullName rule.ProjectId res.ProjectCard.ID ++
      "|This issue> just moved to " ++ rule.ColumnName
    IconEmoji := ":github:"
    Attachments := [] }

/-- The POST of the message `data` succeeds in the call of `SendToSlack`
entered after `earlier` others: the message is marshalled, the request is
made, and the client returns without error. -/
def Delivered (ext : Extern) (SLACK_WEBHOOK_URL : String) (earlier : Nat) (data : Payload) :
    Bool :=
  match ext.jsonMarshal data with
  | none => false
  | some payloadBytes =>
    ext.httpNewRequest "POST" SLACK_WEBHOOK_URL &&
      ext.clientDo earlier SLACK_WEBHOOK_URL payloadBytes

/-- The panics of a failed POST: the errors of `json.Marshal`,
`http.NewRequest` and `http.DefaultClient.Do`. -/
def GoPanic.isDeliveryFailure : GoPanic → Bool
  | .error .jsonMarshal => true
  | .error .httpNewRequest => true
  | .error .clientDo => true
  | _ => false

/-- No rule of the tables matches the event. -/
def MatchesNoRule (notifies : List Notify) (project_notifies : List ProjectNotify) :
    PayloadValue → Prop
  | .issues res => ∀ n ∈ notifies, ¬ IsSubstring n.Mention res.Issue.Body
  | .issueComment res => ∀ n ∈ notifies, ¬ IsSubstring n.Mention res.Comment.Body
  | .projectCard res => ∀ n ∈ project_notifies, res.ProjectCard.ColumnID ≠ n.ColumnId
  | .other => True

/-- The request's signature verifies against the secret: the header is
`sha1=` followed by the HMAC of the body under the secret. -/
def signatureVerifies (ext : Extern) (SECRET : String) (r : Request) : Bool :=
  match r.Body with
  | none => false
  | some payload => r.XHubSignature == "sha1=" ++ ext.hmacSha1Hex SECRET payload

/-- A call of `SendToSlack` whose rule has the type its payload needs: a
mention rule for an issue or issue-comment payload, a column rule for a
project-card payload. -/
def WellPaired : PayloadValue × NotifyValue → Prop
  | (.issues _, .notify _) => True
  | (.issueComment _, .notify _) => True
  | (.projectCard _, .projectNotify _) => True
  | _ => False

/-- An issue whose body mentions `@andrkrn`. -/
def sampleIssue : IssuesPayload :=
  { Issue := { HTMLURL := "https://github.com/o/r/issues/7", Title := "Crash", Body := "ping @andrkrn" } }

/-- The JSON text of `sampleIssue`. -/
def sampleIssueJSON : String :=
  "\x7b\"issue\":\x7b\"html_url\":\"https://github.com/o/r/issues/7\",\"title\":\"Crash\",\"body\":\"ping @andrkrn\"\x7d\x7d"

/-- An issue that mentions nobody. -/
def quietIssue : IssuesPayload :=
  { Issue := { HTMLURL := "https://github.com/o/r/issues/8", Title := "Typo", Body := "fixed" } }

/-- The JSON text of `quietIssue`. -/
def quietIssueJSON : String :=
  "\x7b\"issue\":\x7b\"html_url\":\"https://github.com/o/r/issues/8\",\"title\":\"Typo\",\"body\":\"fixed\"\x7d\x7d"

/-- A card moved to the column of the configured rule. -/
def sampleCard : ProjectCardPayloadPatch :=
  { Repository := { FullName := "o/r" }, ProjectCard := { ID := 42, ColumnID := 13982492 } }

/-- The configured column rule. -/
def qaTestRule : ProjectNotify :=
  { ColumnId := 13982492, ColumnName := "QA Test", Channel := "#id-andrkrn", ProjectId := 1 }

/-- The JSON text of `sampleCard`. -/
def sampleCardJSON : String :=
  "\x7b\"repository\":\x7b\"full_name\":\"o/r\"\x7d,\"project_card\":\x7b\"id\":42,\"column_id\":13982492\x7d\x7d"

/-- A mention table with two rules that match `sampleIssue`. -/
def twoNotifies : List Notify :=
  [{ Mention := "@andrkrn", Channel := "#id-andrkrn" }, { Mention := "ping", Channel := "#ops" }]

/-- A stand-in for `json.Marshal` on a string: the string between quotes,
with the quote, the backslash and the characters `<`, `>`, `&` escaped. -/
def sampleQuote (s : String) : String :=
  "\"" ++ String.join (s.data.map fun c =>
    if c = '"' then "\\\"" else if c = '\\' then "\\\\"
    else if c = '<' then "\\u003c" else if c = '>' then "\\u003e"
    else if c = '&' then "\\u0026" else String.singleton c) ++ "\""

/-- A stand-in for `json.Marshal` on a message; a nil slice is `null`. -/
def sampleMarshal (data : Payload) : String :=
  "\x7b\"username\":" ++ sampleQuote data.Username ++
  ",\"channel\":" ++ sampleQuote data.Channel ++
  ",\"text\":" ++ sampleQuote data.Text ++
  ",\"icon_emoji\":" ++ sampleQuote data.IconEmoji ++
  ",\"attachments\":" ++ (if data.Attachments.isEmpty then "null" else "[" ++
  ",".intercalate (data.Attachments.map fun a =>
    "\x7b\"fallback\":" ++ sampleQuote a.Fallback ++
    ",\"pretext\":" ++ sampleQuote a.Pretext ++
    ",\"color\":" ++ sampleQuote a.Color ++
    ",\"fields\":[" ++
    ",".intercalate (a.Fields.map fun f =>
      "\x7b\"title\":" ++ sampleQuote f.Title ++
      ",\"value\":" ++ sampleQuote f.Value ++
      ",\"short\":" ++ (if f.Short then "true" else "false") ++ "\x7d") ++
    "]\x7d") ++ "]") ++
  "\x7d"

/-- A stand-in for the standard library and the network on the sample
requests: it decodes the sample JSON texts and nothing else, every HMAC is
forty zeros, and every POST succeeds. -/
def sampleExtern : Extern where
  hmacSha1Hex := fun _ _ => "0000000000000000000000000000000000000000"
  unmarshalIssues := fun body =>
    if body == sampleIssueJSON then some sampleIssue
    else if body == quietIssueJSON then some quietIssue
    else none
  unmarshalIssueComment := fun _ => none
  unmarshalProjectCard := fun body => if body == sampleCardJSON then some sampleCard else none
  jsonMarshal := fun data => some (sampleMarshal data)
  httpNewRequest := fun _ _ => true
  clientDo := fun _ _ _ => true

/-- The same stand-in with the network down: every POST fails in the
client. -/
def offlineExtern : Extern :=
  { sampleExtern with clientDo := fun _ _ _ => false }

/-- The address the samples post to. -/
def sampleWebhookURL : String := "https://hooks.slack.com/services/T0/B0/x"

/-- An `issues` delivery of `sampleIssue` whose signature is not an HMAC. -/
def sampleIssueRequest : Request :=
  { Method := "POST", XGitHubEvent := "issues", XHubSignature := "sha1=invalid",
    Body := some sampleIssueJSON }

/-- An `issues` delivery of `sampleIssue` whose signature header is five
other bytes followed by the HMAC. -/
def oddPrefixIssueRequest : Request :=
  { Method := "POST", XGitHubEvent := "issues",
    XHubSignature := "XXXXX0000000000000000000000000000000000000000",
    Body := some sampleIssueJSON }

/-- An `issues` delivery of `quietIssue`. -/
def quietIssueRequest : Request :=
  { Method := "POST", XGitHubEvent := "issues", XHubSignature := "",
    Body := some quietIssueJSON }

/-- A `star` delivery. -/
def starRequest : Request :=
  { Method := "POST", XGitHubEvent := "star", XHubSignature := "",
    Body := some "\x7b\"action\":\"created\"\x7d" }

/-- A `project_card` delivery of `sampleCard`, unsigned. -/
def sampleCardRequest : Request :=
  { Method := "POST", XGitHubEvent := "project_card", XHubSignature := "",
    Body := some sampleCardJSON }

/-- The same delivery with a signature header. -/
def signedCardRequest : Request :=
  { Method := "POST", XGitHubEvent := "project_card", XHubSignature := "sha1=invalid",
    Body := some sampleCardJSON }

/-! ## Lemmas on the library functions -/

theorem hasPrefix_iff (s sub : List Char) : hasPrefix s sub = true ↔ sub <+: s := by
  induction sub generalizing s with
  | nil => simp [hasPrefix]
  | cons d sub ih =>
    cases s with
    | nil => simp [hasPrefix]
    | cons c s =>
      simp only [hasPrefix, Bool.and_eq_true, beq_iff_eq, ih, List.cons_prefix_cons]
      constructor
      · rintro ⟨h, h2⟩; exact ⟨h.symm, h2⟩
      · rintro ⟨h, h2⟩; exact ⟨h.symm, h2⟩

theorem containsAt_iff (s sub : List Char) : containsAt s sub = true ↔ sub <:+: s := by
  induction s with
  | nil =>
    simp only [containsAt, hasPrefix_iff, List.prefix_nil, List.infix_nil]
  | cons c s ih =>
    simp only [containsAt, Bool.or_eq_true, hasPrefix_iff, ih, List.infix_cons_iff]

/-- The function `strings.Contains` decides the literal substring relation. -/
theorem Contains_iff (s substr : String) : Contains s substr = true ↔ IsSubstring substr s := by
  rw [IsSubstring, Contains, containsAt_iff]

/-- The substring relation in terms of string concatenation. -/
theorem isSubstring_iff_append (sub s : String) :
    IsSubstring sub s ↔ ∃ pre post : String, s = pre ++ sub ++ post := by
  constructor
  · rintro ⟨pre, post, h⟩
    refine ⟨⟨pre⟩, ⟨post⟩, ?_⟩
    apply String.ext
    simp [String.data_append, h]
  · rintro ⟨pre, post, h⟩
    exact ⟨pre.data, post.data, by rw [h]; simp [String.data_append]⟩

theorem Contains_eq_decide (s substr : String) :
    Contains s substr = decide (IsSubstring substr s) := by
  rw [Bool.eq_iff_iff, Contains_iff, decide_eq_true_iff]

theorem isSubstring_middle (pre sub post : String) : IsSubstring sub (pre ++ sub ++ post) :=
  (isSubstring_iff_append _ _).2 ⟨pre, post, rfl⟩

theorem IsSubstring.trans {a b c : String} (h₁ : IsSubstring a b) (h₂ : IsSubstring b c) :
    IsSubstring a c :=
  List.IsInfix.trans h₁ h₂

theorem string_length_pos {s : String} (h : s ≠ "") : 0 < s.length := by
  rcases s with ⟨l⟩
  cases l with
  | nil => exact absurd rfl h
  | cons c l => simp [String.length]

/-- A call whose message is built and whose POST succeeds appends the
message. -/
theorem SendToSlack_delivered (ext : Extern) (url : String) (p : PayloadValue) (n : NotifyValue)
    (o : Outcome) (m : Payload) (hb : buildMessage p n = .ok m)
    (hd : Delivered ext url o.calls.length m = true) :
    SendToSlack ext url p n o =
      { calls := o.calls ++ [(p, n)], sent := o.sent ++ [m], status := o.status } := by
  unfold Delivered at hd
  unfold SendToSlack
  simp only [hb]
  cases hj : ext.jsonMarshal m with
  | none => simp [hj] at hd
  | some bytes =>
    simp only [hj, Bool.and_eq_true] at hd
    simp [hd.1, hd.2]

/-- A call whose message is built and whose POST fails panics with the error
of the failed step and sends nothing. -/
theorem SendToSlack_failed (ext : Extern) (url : String) (p : PayloadValue) (n : NotifyValue)
    (o : Outcome) (m : Payload) (hb : buildMessage p n = .ok m)
    (hd : Delivered ext url o.calls.length m = false) :
    ∃ e, e.isDeliveryFailure = true ∧ SendToSlack ext url p n o =
      { calls := o.calls ++ [(p, n)], sent := o.sent, status := .panicked e } := by
  unfold Delivered at hd
  unfold SendToSlack
  simp only [hb]
  cases hj : ext.jsonMarshal m with
  | none => exact ⟨.error .jsonMarshal, rfl, rfl⟩
  | some bytes =>
    simp only [hj, Bool.and_eq_false_imp] at hd
    cases hr : ext.httpNewRequest "POST" url with
    | false => exact ⟨.error .httpNewRequest, rfl, by simp⟩
    | true =>
      have hc := hd hr
      exact ⟨.error .clientDo, rfl, by simp [hc]⟩

/-- The loop sends one message per element that satisfies the condition, in
order, when every such call builds its message and every POST succeeds. -/
theorem rangeSend_eq {α : Type} (ext : Extern) (url : String) (res : PayloadValue)
    (cond : α → Bool) (wrap : α → NotifyValue) (f : α → Payload) (xs : List α)
    (hbuild : ∀ x ∈ xs, cond x = true → buildMessage res (wrap x) = .ok (f x))
    (o : Outcome) (ho : o.status = .returned)
    (hdel : ∀ k x, (xs.filter cond)[k]? = some x →
      Delivered ext url (o.calls.length + k) (f x) = true) :
    rangeSend ext url res cond wrap xs o =
      { calls := o.calls ++ (xs.filter cond).map (fun x => (res, wrap x))
        sent := o.sent ++ (xs.filter cond).map f
        status := .returned } := by
  induction xs generalizing o with
  | nil =>
    cases o
    simp_all [rangeSend]
  | cons x xs ih =>
    have hxs : ∀ y ∈ xs, cond y = true → buildMessage res (wrap y) = .ok (f y) :=
      fun y hy => hbuild y (List.mem_cons_of_mem _ hy)
    by_cases hc : cond x = true
    · have hb := hbuild x (List.mem_cons_self _ _) hc
      have hd0 : Delivered ext url o.calls.length (f x) = true := by
        have := hdel 0 x (by simp [List.filter_cons_of_pos hc])
        simpa using this
      simp only [rangeSend, hc, if_true, SendToSlack_delivered ext url res (wrap x) o (f x) hb hd0,
        ho, List.filter_cons_of_pos, List.map_cons]
      rw [ih hxs _ rfl]
      · simp
      · intro k y hy
        have := hdel (k + 1) y (by simpa [List.filter_cons_of_pos hc] using hy)
        simpa [Nat.add_assoc, Nat.add_comm 1 k] using this
    · have hc2 : cond x = false := by simpa using hc
      simp only [rangeSend, hc2, Bool.false_eq_true, if_false]
      rw [ih hxs o ho]
      · simp [hc2]
      · intro k y hy
        exact hdel k y (by simpa [hc2] using hy)

/-- Whatever the network does, the loop sends the messages of the first
elements that satisfy the condition, as far as the POSTs succeed: it returns
normally exactly when it has sent them all, and it panics only with the error
of a failed POST. -/
theorem rangeSend_prefix {α : Type} (ext : Extern) (url : String) (res : PayloadValue)
    (cond : α → Bool) (wrap : α → NotifyValue) (f : α → Payload) (xs : List α)
    (hbuild : ∀ x ∈ xs, cond x = true → buildMessage res (wrap x) = .ok (f x))
    (o : Outcome) (ho : o.status = .returned) :
    ∃ j, j ≤ (xs.filter cond).length ∧
      (rangeSend ext url res cond wrap xs o).sent = o.sent ++ ((xs.filter cond).take j).map f ∧
      ((rangeSend ext url res cond wrap xs o).status = .returned ↔
        j = (xs.filter cond).length) ∧
      (∀ c ∈ (rangeSend ext url res cond wrap xs o).calls,
        c ∈ o.calls ∨ ∃ x ∈ xs, c = (res, wrap x)) ∧
      (∀ e, (rangeSend ext url res cond wrap xs o).status = .panicked e →
        e.isDeliveryFailure = true) := by
  induction xs generalizing o with
  | nil =>
    refine ⟨0, by simp, by simp [rangeSend], by simp [rangeSend, ho], ?_, ?_⟩
    · intro c hc
      exact Or.inl hc
    · intro e he
      simp [rangeSend, ho] at he
  | cons x xs ih =>
    have hxs : ∀ y ∈ xs, cond y = true → buildMessage res (wrap y) = .ok (f y) :=
      fun y hy => hbuild y (List.mem_cons_of_mem _ hy)
    by_cases hc : cond x = true
    · have hb := hbuild x (List.mem_cons_self _ _) hc
      cases hd : Delivered ext url o.calls.length (f x) with
      | true =>
        have hs := SendToSlack_delivered ext url res (wrap x) o (f x) hb hd
        obtain ⟨j, hj, hsent, hst, hcalls, hpan⟩ := ih hxs
          { calls := o.calls ++ [(res, wrap x)], sent := o.sent ++ [f x], status := .returned } rfl
        have hrun : rangeSend ext url res cond wrap (x :: xs) o =
            rangeSend ext url res cond wrap xs
              { calls := o.calls ++ [(res, wrap x)], sent := o.sent ++ [f x],
                status := .returned } := by
          simp only [rangeSend, hc, if_true, hs, ho]
        rw [hrun, List.filter_cons_of_pos hc]
        refine ⟨j + 1, by simpa using hj, by simp [hsent], by simp [hst], ?_, hpan⟩
        intro c hcm
        rcases hcalls c hcm with h | ⟨y, hy, rfl⟩
        · rcases List.mem_append.1 h with h | h
          · exact Or.inl h
          · exact Or.inr ⟨x, List.mem_cons_self _ _, by simpa using h⟩
        · exact Or.inr ⟨y, List.mem_cons_of_mem _ hy, rfl⟩
      | false =>
        obtain ⟨e, he, hs⟩ := SendToSlack_failed ext url res (wrap x) o (f x) hb hd
        have hrun : rangeSend ext url res cond wrap (x :: xs) o =
            { calls := o.calls ++ [(res, wrap x)], sent := o.sent, status := .panicked e } := by
          simp only [rangeSend, hc, if_true, hs]
        rw [hrun, List.filter_cons_of_pos hc]
        refine ⟨0, by simp, by simp, by simp, ?_, ?_⟩
        · intro c hcm
          rcases List.mem_append.1 hcm with h | h
          · exact Or.inl h
          · exact Or.inr ⟨x, List.mem_cons_self _ _, by simpa using h⟩
        · intro e' he'
          cases he'
          exact he
    · have hc2 : cond x = false := by simpa using hc
      obtain ⟨j, hj, hsent, hst, hcalls, hpan⟩ := ih hxs o ho
      have hrun : rangeSend ext url res cond wrap (x :: xs) o =
          rangeSend ext url res cond wrap xs o := by
        simp only [rangeSend, hc2, Bool.false_eq_true, if_false]
      rw [hrun, List.filter_cons_of_neg (by simp [hc2])]
      refine ⟨j, hj, hsent, hst, ?_, hpan⟩
      intro c hcm
      rcases hcalls c hcm with h | ⟨y, hy, rfl⟩
      · exact Or.inl h
      · exact Or.inr ⟨y, List.mem_cons_of_mem _ hy, rfl⟩

theorem buildMessage_issues (res : IssuesPayload) (n : Notify) :
    buildMessage (.issues res) (.notify n) =
      .ok (mentionMessage n.Channel res.Issue.HTMLURL res.Issue.Title res.Issue.Body) := rfl

theorem buildMessage_issueComment (res : IssueCommentPayload) (n : Notify) :
    buildMessage (.issueComment res) (.notify n) =
      .ok (mentionMessage n.Channel res.Comment.HTMLURL res.Issue.Title res.Comment.Body) := rfl

theorem buildMessage_projectCard (res : ProjectCardPayloadPatch) (n : ProjectNotify) :
    buildMessage (.projectCard res) (.projectNotify n) = .ok (cardMessage res n) := rfl

/-- The run of the handler on an issue event when the POSTs succeed. -/
theorem dispatch_issues (ext : Extern) (ns : List Notify) (pns : List ProjectNotify)
    (url : String) (res : IssuesPayload)
    (hdel : ∀ k n, (matchingNotifies ns res.Issue.Body)[k]? = some n →
      Delivered ext url k
        (mentionMessage n.Channel res.Issue.HTMLURL res.Issue.Title res.Issue.Body) = true) :
    dispatch ext ns pns url (.issues res) =
      { calls := (matchingNotifies ns res.Issue.Body).map
          (fun n => (PayloadValue.issues res, NotifyValue.notify n))
        sent := (matchingNotifies ns res.Issue.Body).map
          (fun n => mentionMessage n.Channel res.Issue.HTMLURL res.Issue.Title res.Issue.Body)
        status := .returned } := by
  have hc : (fun n : Notify => Contains res.Issue.Body n.Mention) =
      fun n => decide (IsSubstring n.Mention res.Issue.Body) :=
    funext fun n => Contains_eq_decide _ _
  simp only [dispatch]
  rw [rangeSend_eq ext url _ _ _ _ ns (fun n _ _ => buildMessage_issues res n) _ rfl, hc]
  · simp [matchingNotifies]
  · rw [hc]
    simpa [matchingNotifies] using hdel

/-- The run of the handler on an issue-comment event when the POSTs
succeed. -/
theorem dispatch_issueComment (ext : Extern) (ns : List Notify) (pns : List ProjectNotify)
    (url : String) (res : IssueCommentPayload)
    (hdel : ∀ k n, (matchingNotifies ns res.Comment.Body)[k]? = some n →
      Delivered ext url k
        (mentionMessage n.Channel res.Comment.HTMLURL res.Issue.Title res.Comment.Body) = true) :
    dispatch ext ns pns url (.issueComment res) =
      { calls := (matchingNotifies ns res.Comment.Body).map
          (fun n => (PayloadValue.issueComment res, NotifyValue.notify n))
        sent := (matchingNotifies ns res.Comment.Body).map
          (fun n => mentionMessage n.Channel res.Comment.HTMLURL res.Issue.Title res.Comment.Body)
        status := .returned } := by
  have hc : (fun n : Notify => Contains res.Comment.Body n.Mention) =
      fun n => decide (IsSubstring n.Mention res.Comment.Body) :=
    funext fun n => Contains_eq_decide _ _
  simp only [dispatch]
  rw [rangeSend_eq ext url _ _ _ _ ns (fun n _ _ => buildMessage_issueComment res n) _ rfl, hc]
  · simp [matchingNotifies]
  · rw [hc]
    simpa [matchingNotifies] using hdel

/-- The run of the handler on a project-card event when the POSTs succeed. -/
theorem dispatch_projectCard (ext : Extern) (ns : List Notify) (pns : List ProjectNotify)
    (url : String) (res : ProjectCardPayloadPatch)
    (hdel : ∀ k n, (matchingProjectNotifies pns res.ProjectCard.ColumnID)[k]? = some n →
      Delivered ext url k (cardMessage res n) = true) :
    dispatch ext ns pns url (.projectCard res) =
      { calls := (matchingProjectNotifies pns res.ProjectCard.ColumnID).map
          (fun n => (PayloadValue.projectCard res, NotifyValue.projectNotify n))
        sent := (matchingProjectNotifies pns res.ProjectCard.ColumnID).map (cardMessage res)
        status := .returned } := by
  have hc : (fun n : ProjectNotify => res.ProjectCard.ColumnID == n.ColumnId) =
      fun n => decide (n.ColumnId = res.ProjectCard.ColumnID) := by
    funext n
    rw [Bool.eq_iff_iff, beq_iff_eq, decide_eq_true_iff]
    exact eq_comm
  simp only [dispatch]
  rw [rangeSend_eq ext url _ _ _ _ pns (fun n _ _ => buildMessage_projectCard res n) _ rfl, hc]
  · simp [matchingProjectNotifies]
  · rw [hc]
    simpa [matchingProjectNotifies] using hdel

/-- Whatever the network does, every call of `SendToSlack` the type switch
makes is well paired and builds its message, and the switch ends normally or
in the panic of a failed POST. -/
theorem dispatch_calls_status (ext : Extern) (ns : List Notify) (pns : List ProjectNotify)
    (url : String) (p : PayloadValue) :
    (∀ c ∈ (dispatch ext ns pns url p).calls,
      WellPaired c ∧ ∃ m, buildMessage c.1 c.2 = .ok m) ∧
    (∀ e, (dispatch ext ns pns url p).status = .panicked e → e.isDeliveryFailure = true) := by
  cases p with
  | issues res =>
    obtain ⟨j, _, _, _, hcalls, hpan⟩ := rangeSend_prefix ext url (.issues res)
      (fun notify => Contains res.Issue.Body notify.Mention) NotifyValue.notify _ ns
      (fun n _ _ => buildMessage_issues res n)
      { calls := [], sent := [], status := .returned } rfl
    refine ⟨fun c hc => ?_, hpan⟩
    rcases hcalls c hc with h | ⟨n, _, rfl⟩
    · cases h
    · exact ⟨trivial, _, buildMessage_issues res n⟩
  | issueComment res =>
    obtain ⟨j, _, _, _, hcalls, hpan⟩ := rangeSend_prefix ext url (.issueComment res)
      (fun notify => Contains res.Comment.Body notify.Mention) NotifyValue.notify _ ns
      (fun n _ _ => buildMessage_issueComment res n)
      { calls := [], sent := [], status := .returned } rfl
    refine ⟨fun c hc => ?_, hpan⟩
    rcases hcalls c hc with h | ⟨n, _, rfl⟩
    · cases h
    · exact ⟨trivial, _, buildMessage_issueComment res n⟩
  | projectCard res =>
    obtain ⟨j, _, _, _, hcalls, hpan⟩ := rangeSend_prefix ext url (.projectCard res)
      (fun project_notify => res.ProjectCard.ColumnID == project_notify.ColumnId)
      NotifyValue.projectNotify _ pns
      (fun n _ _ => buildMessage_projectCard res n)
      { calls := [], sent := [], status := .returned } rfl
    refine ⟨fun c hc => ?_, hpan⟩
    rcases hcalls c hc with h | ⟨n, _, rfl⟩
    · cases h
    · exact ⟨trivial, _, buildMessage_projectCard res n⟩
  | other =>
    exact ⟨fun c hc => (by cases hc), fun e he => (by cases he)⟩

/-- The handler is the type switch run on the decoded payload. -/
theorem ParseGithubPayload_of_decode (ext : Extern) (ns : List Notify) (pns : List ProjectNotify)
    (SECRET url : String) (r : Request) (p : PayloadValue)
    (h : decodePayload ext SECRET r = .ok p) :
    ParseGithubPayload ext ns pns SECRET url r = dispatch ext ns pns url p := by
  simp [ParseGithubPayload, h]

/-- The handler panics where decoding does, before any call. -/
theorem ParseGithubPayload_of_panic (ext : Extern) (ns : List Notify) (pns : List ProjectNotify)
    (SECRET url : String) (r : Request) (e : GoPanic)
    (h : decodePayload ext SECRET r = .error e) :
    ParseGithubPayload ext ns pns SECRET url r =
      { calls := [], sent := [], status := .panicked e } := by
  simp [ParseGithubPayload, h]

theorem checkMAC_panic (ext : Extern) (hook : Webhook) (r : Request) (payload : String)
    (p : GoPanic) (h : checkMAC ext hook r payload = .error p) : p = .sliceBounds := by
  simp only [checkMAC] at h
  split_ifs at h
  cases h
  rfl

/-- The only panic inside `Parse` is the failed slice of the signature. -/
theorem Parse_panic (ext : Extern) (hook : Webhook) (r : Request) (events : List String)
    (p : GoPanic) (h : Parse ext hook r events = .error p) : p = .sliceBounds := by
  simp only [Parse] at h
  split_ifs at h
  split at h
  · cases h
  · split_ifs at h
    split at h
    · next q hq =>
      cases h
      exact checkMAC_panic _ _ _ _ _ hq
    · cases h
    · cases h

/-- Decoding never ends in a failed type assertion. -/
theorem decodePayload_ne_typeAssertion (ext : Extern) (SECRET : String) (r : Request) :
    decodePayload ext SECRET r ≠ .error .typeAssertion := by
  intro h
  simp only [decodePayload, New] at h
  split_ifs at h
  · split at h
    · cases h
    · split_ifs at h
      · cases h
      · split at h <;> cases h
  · split at h
    · next p hp =>
      have := Parse_panic _ _ _ _ _ hp
      subst this
      cases h
    · cases h
    · cases h

/-! ## The claims -/

/-- A failed POST ends the fan-out: with two rules that match and the network
down, the handler enters `SendToSlack` for the first rule only, sends nothing
and panics with the error of the client. -/
theorem failed_post_stops_fanout :
    ParseGithubPayload offlineExtern twoNotifies project_notifies "" sampleWebhookURL
        sampleIssueRequest =
      { calls := [(.issues sampleIssue, .notify { Mention := "@andrkrn", Channel := "#id-andrkrn" })]
        sent := []
        status := .panicked (.error .clientDo) } := by
  rfl

/-- C1: for every issue or issue-comment event (a request that decodes to
one) and every mention-rule table, when the POST of each matching rule's
message succeeds (`SendToSlack` then appends the built message to `sent`), the
handler returns normally and sends exactly one message per rule whose
`Mention` is a literal substring of the event's body (`Issue.Body`,
respectively `Comment.Body`), in table order: the k-th message goes to the
channel of the k-th matching rule, and `SendToSlack` is called once per
matching rule, in that order. -/
theorem mention_fanout (ext : Extern) (ns : List Notify) (pns : List ProjectNotify)
    (SECRET url : String) (r : Request) (p : PayloadValue) (body : String)
    (hdec : decodePayload ext SECRET r = .ok p) (hbody : mentionBody p = some body)
    (hdel : ∀ k n m, (matchingNotifies ns body)[k]? = some n →
      buildMessage p (.notify n) = .ok m → Delivered ext url k m = true) :
    (ParseGithubPayload ext ns pns SECRET url r).status = .returned ∧
    (ParseGithubPayload ext ns pns SECRET url r).sent.length =
      (matchingNotifies ns body).length ∧
    (ParseGithubPayload ext ns pns SECRET url r).sent.map Payload.Channel =
      (matchingNotifies ns body).map Notify.Channel ∧
    (ParseGithubPayload ext ns pns SECRET url r).calls =
      (matchingNotifies ns body).map (fun n => (p, NotifyValue.notify n)) := by
  rw [ParseGithubPayload_of_decode ext ns pns SECRET url r p hdec]
  cases p with
  | issues res =>
    simp only [mentionBody, Option.some.injEq] at hbody
    subst hbody
    rw [dispatch_issues ext ns pns url res
      (fun k n hk => hdel k n _ hk (buildMessage_issues res n))]
    simp [mentionMessage, Function.comp_def]
  | issueComment res =>
    simp only [mentionBody, Option.some.injEq] at hbody
    subst hbody
    rw [dispatch_issueComment ext ns pns url res
      (fun k n hk => hdel k n _ hk (buildMessage_issueComment res n))]
    simp [mentionMessage, Function.comp_def]
  | projectCard res => simp [mentionBody] at hbody
  | other => simp [mentionBody] at hbody

/-- Witness of C1: the sample issue delivery under a table with two matching
rules, every POST succeeding: two messages, to `#id-andrkrn` and `#ops`. -/
theorem mention_fanout_witness :
    decodePayload sampleExtern "" sampleIssueRequest = .ok (.issues sampleIssue) ∧
    mentionBody (.issues sampleIssue) = some "ping @andrkrn" ∧
    (∀ k n m, (matchingNotifies twoNotifies "ping @andrkrn")[k]? = some n →
      buildMessage (.issues sampleIssue) (.notify n) = .ok m →
      Delivered sampleExtern sampleWebhookURL k m = true) ∧
    (ParseGithubPayload sampleExtern twoNotifies project_notifies "" sampleWebhookURL
      sampleIssueRequest).sent.map Payload.Channel = ["#id-andrkrn", "#ops"] :=
  ⟨by rfl, by rfl, fun _ _ _ _ _ => rfl,
    (mention_fanout sampleExtern twoNotifies project_notifies "" sampleWebhookURL
      sampleIssueRequest (.issues sampleIssue) "ping @andrkrn" (by rfl) (by rfl)
      (fun _ _ _ _ _ => rfl)).2.2.1.trans (by decide)⟩

/-- C3: for every decoded event that matches no rule of the tables, the
handler returns normally having made no call of `SendToSlack` and sent no
message. -/
theorem no_match_no_message (ext : Extern) (ns : List Notify) (pns : List ProjectNotify)
    (SECRET url : String) (r : Request) (p : PayloadValue)
    (hdec : decodePayload ext SECRET r = .ok p) (hno : MatchesNoRule ns pns p) :
    ParseGithubPayload ext ns pns SECRET url r =
      { calls := [], sent := [], status := .returned } := by
  rw [ParseGithubPayload_of_decode ext ns pns SECRET url r p hdec]
  cases p with
  | issues res =>
    have h : matchingNotifies ns res.Issue.Body = [] := by
      simp only [matchingNotifies, List.filter_eq_nil_iff, decide_eq_true_eq]
      exact hno
    rw [dispatch_issues ext ns pns url res (by simp [h]), h]
    rfl
  | issueComment res =>
    have h : matchingNotifies ns res.Comment.Body = [] := by
      simp only [matchingNotifies, List.filter_eq_nil_iff, decide_eq_true_eq]
      exact hno
    rw [dispatch_issueComment ext ns pns url res (by simp [h]), h]
    rfl
  | projectCard res =>
    have h : matchingProjectNotifies pns res.ProjectCard.ColumnID = [] := by
      simp only [matchingProjectNotifies, List.filter_eq_nil_iff, decide_eq_true_eq]
      exact fun n hn he => hno n hn he.symm
    rw [dispatch_projectCard ext ns pns url res (by simp [h]), h]
    rfl
  | other => rfl

/-- Witness of C3: an issue that mentions nobody. -/
theorem no_match_no_message_witness :
    decodePayload sampleExtern "" quietIssueRequest = .ok (.issues quietIssue) ∧
    MatchesNoRule notifies project_notifies (.issues quietIssue) ∧
    ParseGithubPayload sampleExtern notifies project_notifies "" sampleWebhookURL
        quietIssueRequest =
      { calls := [], sent := [], status := .returned } :=
  ⟨by rfl, by simp only [MatchesNoRule]; decide,
    no_match_no_message sampleExtern notifies project_notifies "" sampleWebhookURL
      quietIssueRequest (.issues quietIssue) (by rfl) (by simp only [MatchesNoRule]; decide)⟩

/-- C6: for every issue event, issue-comment event and mention rule,
`SendToSlack` builds the message whose text is `<URL|title>`, the title being
`Issue.Title` and the URL `Issue.HTMLURL`, respectively `Comment.HTMLURL`, so
the text contains the event's URL, and that is the message it posts; and an
issue with body `ping @andrkrn` under the rule `@andrkrn -> #id-andrkrn` gives
exactly one call of `SendToSlack` and, its POST succeeding, exactly one
message, on channel `#id-andrkrn`, whose text contains the issue's URL. -/
theorem mention_text (res : IssuesPayload) (cres : IssueCommentPayload) (n : Notify)
    (pns : List ProjectNotify) (url title : String) :
    (∃ m, buildMessage (.issues res) (.notify n) = .ok m ∧
      (∀ ext hook o, Delivered ext hook o.calls.length m = true →
        (SendToSlack ext hook (.issues res) (.notify n) o).sent = o.sent ++ [m]) ∧
      m.Text = "<" ++ res.Issue.HTMLURL ++ "|" ++ res.Issue.Title ++ ">" ∧
      IsSubstring res.Issue.HTMLURL m.Text) ∧
    (∃ m, buildMessage (.issueComment cres) (.notify n) = .ok m ∧
      (∀ ext hook o, Delivered ext hook o.calls.length m = true →
        (SendToSlack ext hook (.issueComment cres) (.notify n) o).sent = o.sent ++ [m]) ∧
      m.Text = "<" ++ cres.Comment.HTMLURL ++ "|" ++ cres.Issue.Title ++ ">" ∧
      IsSubstring cres.Comment.HTMLURL m.Text) ∧
    (∃ m, buildMessage
        (.issues { Issue := { HTMLURL := url, Title := title, Body := "ping @andrkrn" } })
        (.notify { Mention := "@andrkrn", Channel := "#id-andrkrn" }) = .ok m ∧
      (∀ ext hook, Delivered ext hook 0 m = true →
        (dispatch ext [{ Mention := "@andrkrn", Channel := "#id-andrkrn" }] pns hook
          (.issues { Issue := { HTMLURL := url, Title := title, Body := "ping @andrkrn" } })).sent
            = [m]) ∧
      m.Channel = "#id-andrkrn" ∧ IsSubstring url m.Text) := by
  have hsub : ∀ u t : String, IsSubstring u ("<" ++ u ++ "|" ++ t ++ ">") := by
    intro u t
    have h := isSubstring_middle "<" u ("|" ++ t ++ ">")
    simpa [String.append_assoc] using h
  refine ⟨⟨mentionMessage n.Channel res.Issue.HTMLURL res.Issue.Title res.Issue.Body,
      rfl, fun ext hook o hd => ?_, rfl, hsub _ _⟩,
    ⟨mentionMessage n.Channel cres.Comment.HTMLURL cres.Issue.Title cres.Comment.Body,
      rfl, fun ext hook o hd => ?_, rfl, hsub _ _⟩,
    ⟨mentionMessage "#id-andrkrn" url title "ping @andrkrn", rfl, fun ext hook hd => ?_, rfl,
      hsub _ _⟩⟩
  · rw [SendToSlack_delivered ext hook _ _ o _ (buildMessage_issues res n) hd]
  · rw [SendToSlack_delivered ext hook _ _ o _ (buildMessage_issueComment cres n) hd]
  · have hm : matchingNotifies [{ Mention := "@andrkrn", Channel := "#id-andrkrn" }]
        "ping @andrkrn" = [{ Mention := "@andrkrn", Channel := "#id-andrkrn" }] := by decide
    rw [dispatch_issues]
    · simp only [hm, List.map_cons, List.map_nil]
    · intro k n' hk
      simp only [hm] at hk
      cases k with
      | zero =>
        simp only [List.getElem?_cons_zero, Option.some.injEq] at hk
        subst hk
        exact hd
      | succ k => simp at hk

/-- Witness of C6: the sample issue under the configured mention table, its
POST succeeding. -/
theorem mention_text_witness :
    Delivered sampleExtern sampleWebhookURL 0
      (mentionMessage "#id-andrkrn" "https://github.com/o/r/issues/7" "Crash" "ping @andrkrn")
        = true ∧
    (dispatch sampleExtern notifies project_notifies sampleWebhookURL
      (.issues sampleIssue)).sent =
      [mentionMessage "#id-andrkrn" "https://github.com/o/r/issues/7" "Crash" "ping @andrkrn"] ∧
    IsSubstring "https://github.com/o/r/issues/7"
      (mentionMessage "#id-andrkrn" "https://github.com/o/r/issues/7" "Crash"
        "ping @andrkrn").Text :=
  ⟨by rfl,
    by
      obtain ⟨m, hb, hs, _, _⟩ := (mention_text sampleIssue
        { Issue := sampleIssue.Issue, Comment := { HTMLURL := "", Body := "" } }
        { Mention := "@andrkrn", Channel := "#id-andrkrn" } project_notifies
        "https://github.com/o/r/issues/7" "Crash").2.2
      cases hb
      exact hs sampleExtern sampleWebhookURL (by rfl),
    by decide⟩

/-- C7: for every issue or issue-comment event and every rule, `SendToSlack`
builds a message, and it has exactly one attachment, of color `warning`, with
exactly one field, whose value is the event's body and whose short flag is
false; for every project-card event and column rule it builds a message with
no attachment, and no message it builds for a project-card event has one. -/
theorem message_attachments (res : IssuesPayload) (cres : IssueCommentPayload)
    (card : ProjectCardPayloadPatch) (n : NotifyValue) (rule : ProjectNotify) :
    (∃ m a f, buildMessage (.issues res) n = .ok m ∧ m.Attachments = [a] ∧
      a.Color = "warning" ∧ a.Fields = [f] ∧ f.Value = res.Issue.Body ∧ f.Short = false) ∧
    (∃ m a f, buildMessage (.issueComment cres) n = .ok m ∧ m.Attachments = [a] ∧
      a.Color = "warning" ∧ a.Fields = [f] ∧ f.Value = cres.Comment.Body ∧ f.Short = false) ∧
    (∃ m, buildMessage (.projectCard card) (.projectNotify rule) = .ok m ∧
      m.Attachments = []) ∧
    (∀ m, buildMessage (.projectCard card) n = .ok m → m.Attachments = []) := by
  refine ⟨?_, ?_, ⟨cardMessage card rule, rfl, rfl⟩, fun m h => ?_⟩
  · cases n <;> exact ⟨_, _, _, rfl, rfl, rfl, rfl, rfl, rfl⟩
  · cases n <;> exact ⟨_, _, _, rfl, rfl, rfl, rfl, rfl, rfl⟩
  · cases n with
    | projectNotify pn =>
      simp only [buildMessage, Except.ok.injEq] at h
      subst h
      rfl
    | notify x => simp [buildMessage] at h
    | other => simp [buildMessage] at h

/-- Witness of C7: the attachment of the message for the sample issue, and
the message for the sample card. -/
theorem message_attachments_witness :
    buildMessage (.issues sampleIssue) (.notify { Mention := "@andrkrn", Channel := "#id-andrkrn" })
      = .ok (mentionMessage "#id-andrkrn" "https://github.com/o/r/issues/7" "Crash"
          "ping @andrkrn") ∧
    (mentionMessage "#id-andrkrn" "https://github.com/o/r/issues/7" "Crash"
        "ping @andrkrn").Attachments =
      [{ Fallback := "You have been mentioned", Pretext := "", Color := "warning",
         Fields := [{ Title := "", Value := "ping @andrkrn", Short := false }] }] ∧
    buildMessage (.projectCard sampleCard) (.projectNotify qaTestRule) =
      .ok (cardMessage sampleCard qaTestRule) ∧
    (cardMessage sampleCard qaTestRule).Attachments = [] :=
  ⟨by rfl, by rfl, by rfl,
    (message_attachments sampleIssue
      { Issue := sampleIssue.Issue, Comment := { HTMLURL := "", Body := "" } } sampleCard
      (.projectNotify qaTestRule) qaTestRule).2.2.2 (cardMessage sampleCard qaTestRule)
      (by rfl)⟩

/-- C4, as stated, fails: a `star` delivery does not complete successfully,
the handler panics with `ErrEventNotFound`. -/
theorem star_event_panics :
    starRequest.XGitHubEvent = "star" ∧
    (ParseGithubPayload sampleExtern notifies project_notifies "" sampleWebhookURL
      starRequest).status = .panicked (.error .ErrEventNotFound) ∧
    (ParseGithubPayload sampleExtern notifies project_notifies "" sampleWebhookURL
      starRequest).status ≠ .returned :=
  ⟨by rfl, by rfl, by decide⟩

/-- C4, amended: for every request whose event header names an event other
than `issues`, `issue_comment` and `project_card`, the handler calls
`SendToSlack` never and sends no message, and it does not return normally: it
panics with the error of `Webhook.Parse`, which is `ErrEventNotFound` when the
request is a POST with a non-empty event header. -/
theorem unknown_event_rejected (ext : Extern) (ns : List Notify) (pns : List ProjectNotify)
    (SECRET url : String) (r : Request)
    (h₁ : r.XGitHubEvent ≠ IssuesEvent) (h₂ : r.XGitHubEvent ≠ IssueCommentEvent)
    (h₃ : r.XGitHubEvent ≠ ProjectCardEvent) :
    (ParseGithubPayload ext ns pns SECRET url r).calls = [] ∧
    (ParseGithubPayload ext ns pns SECRET url r).sent = [] ∧
    ∃ err, (ParseGithubPayload ext ns pns SECRET url r).status = .panicked (.error err) ∧
      (r.Method = "POST" → r.XGitHubEvent ≠ "" → err = .ErrEventNotFound) := by
  have hdec : ∃ err, decodePayload ext SECRET r = .error (.error err) ∧
      (r.Method = "POST" → r.XGitHubEvent ≠ "" → err = .ErrEventNotFound) := by
    simp only [decodePayload, New, beq_iff_eq, h₃, if_false, Parse, List.isEmpty_cons,
      Bool.false_eq_true, bne_iff_ne, ne_eq, ite_not, List.contains_eq_any_beq, List.any_cons,
      List.any_nil, Bool.or_false, Bool.not_eq_true', Bool.or_eq_false_iff, beq_eq_false_iff_ne,
      h₁, h₂, not_false_eq_true, and_self, if_true]
    by_cases hm : r.Method = "POST"
    · by_cases he : r.XGitHubEvent = ""
      · exact ⟨.ErrMissingGithubEventHeader, by simp [hm, he], fun _ h => absurd he h⟩
      · exact ⟨.ErrEventNotFound, by simp [hm, he], fun _ _ => rfl⟩
    · exact ⟨.ErrInvalidHTTPMethod, by simp [hm], fun h => absurd h hm⟩
  obtain ⟨err, hd, herr⟩ := hdec
  rw [ParseGithubPayload_of_panic ext ns pns SECRET url r _ hd]
  exact ⟨rfl, rfl, err, rfl, herr⟩

/-- Witness of C4 amended: the `star` delivery. -/
theorem unknown_event_rejected_witness :
    starRequest.XGitHubEvent ≠ IssuesEvent ∧ starRequest.XGitHubEvent ≠ IssueCommentEvent ∧
    starRequest.XGitHubEvent ≠ ProjectCardEvent ∧
    (ParseGithubPayload sampleExtern notifies project_notifies "s3cret" sampleWebhookURL
      starRequest).sent = [] :=
  ⟨by decide, by decide, by decide,
    (unknown_event_rejected sampleExtern notifies project_notifies "s3cret" sampleWebhookURL
      starRequest (by decide) (by decide) (by decide)).2.1⟩

/-- C5, as stated, fails in three ways. With an empty `SECRET` an issue
delivery whose signature does not verify is accepted and its mention is
relayed. With a non-empty `SECRET`, a delivery whose signature header is five
other bytes followed by the HMAC does not verify (it does not start with
`sha1=`) and is accepted all the same. And with a non-empty `SECRET`, a
delivery with an empty body and no valid signature fails with
`ErrParsingPayload`, which is not a signature error. -/
theorem empty_secret_skips_verification :
    (signatureVerifies sampleExtern "" sampleIssueRequest = false ∧
      ParseGithubPayload sampleExtern notifies project_notifies "" sampleWebhookURL
          sampleIssueRequest =
        { calls := [(.issues sampleIssue, .notify { Mention := "@andrkrn", Channel := "#id-andrkrn" })]
          sent := [mentionMessage "#id-andrkrn" "https://github.com/o/r/issues/7" "Crash"
            "ping @andrkrn"]
          status := .returned }) ∧
    (signatureVerifies sampleExtern "s3cret" oddPrefixIssueRequest = false ∧
      ParseGithubPayload sampleExtern notifies project_notifies "s3cret" sampleWebhookURL
          oddPrefixIssueRequest =
        { calls := [(.issues sampleIssue, .notify { Mention := "@andrkrn", Channel := "#id-andrkrn" })]
          sent := [mentionMessage "#id-andrkrn" "https://github.com/o/r/issues/7" "Crash"
            "ping @andrkrn"]
          status := .returned }) ∧
    (signatureVerifies sampleExtern "s3cret" { sampleIssueRequest with Body := some "" } = false ∧
      (ParseGithubPayload sampleExtern notifies project_notifies "s3cret" sampleWebhookURL
        { sampleIssueRequest with Body := some "" }).status =
          .panicked (.error .ErrParsingPayload)) :=
  ⟨⟨by rfl, by rfl⟩, ⟨by rfl, by rfl⟩, by rfl, by rfl⟩

theorem sha1_prefix_drop (mac : String) :
    5 ≤ ("sha1=" ++ mac).length ∧ ("sha1=" ++ mac).drop 5 = mac := by
  constructor
  · have h : "sha1=".length = 5 := by decide
    rw [String.length_append, h]
    omega
  · rw [String.drop_eq]
    apply String.ext
    simp [String.data_append]

/-- C5, amended: for every non-empty `SECRET` and every issue or issue-comment
request whose signature header, without its first five bytes, is not the HMAC
of the body under `SECRET` (its signature then does not verify), the handler
panics having called `SendToSlack` never and sent no message, whatever the
body contains. The panic is `ErrInvalidHTTPMethod` when the request is not a
POST and `ErrParsingPayload` when the body is unreadable or empty; for a POST
with a readable, non-empty body it is `ErrMissingHubSignatureHeader` when the
header is empty, the failed slice `signature[5:]` when the header has one to
four bytes, and `ErrHMACVerificationFailed` otherwise. -/
theorem bad_signature_rejected (ext : Extern) (ns : List Notify) (pns : List ProjectNotify)
    (SECRET url : String) (r : Request) (hsecret : SECRET ≠ "")
    (hevent : r.XGitHubEvent = IssuesEvent ∨ r.XGitHubEvent = IssueCommentEvent)
    (htail : ∀ body, r.Body = some body →
      ¬ (5 ≤ r.XHubSignature.length ∧ r.XHubSignature.drop 5 = ext.hmacSha1Hex SECRET body)) :
    signatureVerifies ext SECRET r = false ∧
    ∃ p, ParseGithubPayload ext ns pns SECRET url r =
        { calls := [], sent := [], status := .panicked p } ∧
      (r.Method ≠ "POST" → p = .error .ErrInvalidHTTPMethod) ∧
      (r.Method = "POST" → (r.Body = none ∨ r.Body = some "") →
        p = .error .ErrParsingPayload) ∧
      (r.Method = "POST" → (∃ body, r.Body = some body ∧ body ≠ "") →
        (r.XHubSignature = "" → p = .error .ErrMissingHubSignatureHeader) ∧
        (r.XHubSignature ≠ "" → r.XHubSignature.length < 5 → p = .sliceBounds) ∧
        (5 ≤ r.XHubSignature.length → p = .error .ErrHMACVerificationFailed)) := by
  have hlen := string_length_pos hsecret
  have hnc : r.XGitHubEvent ≠ ProjectCardEvent := by
    rcases hevent with h | h <;> rw [h] <;> decide
  have hne : r.XGitHubEvent ≠ "" := by
    rcases hevent with h | h <;> rw [h] <;> decide
  have hmem : ¬(¬r.XGitHubEvent = IssuesEvent ∧ ¬r.XGitHubEvent = IssueCommentEvent) := by
    rcases hevent with h | h <;> simp [h]
  have hver : signatureVerifies ext SECRET r = false := by
    unfold signatureVerifies
    cases hb : r.Body with
    | none => rfl
    | some body =>
      simp only [beq_eq_false_iff_ne, ne_eq]
      intro heq
      apply htail body hb
      rw [heq]
      exact sha1_prefix_drop _
  refine ⟨hver, ?_⟩
  have hdec : ∃ p, decodePayload ext SECRET r = .error p ∧
      (r.Method ≠ "POST" → p = .error .ErrInvalidHTTPMethod) ∧
      (r.Method = "POST" → (r.Body = none ∨ r.Body = some "") →
        p = .error .ErrParsingPayload) ∧
      (r.Method = "POST" → (∃ body, r.Body = some body ∧ body ≠ "") →
        (r.XHubSignature = "" → p = .error .ErrMissingHubSignatureHeader) ∧
        (r.XHubSignature ≠ "" → r.XHubSignature.length < 5 → p = .sliceBounds) ∧
        (5 ≤ r.XHubSignature.length → p = .error .ErrHMACVerificationFailed)) := by
    by_cases hm : r.Method = "POST"
    · cases hb : r.Body with
      | none =>
        refine ⟨.error .ErrParsingPayload, ?_, fun h => absurd hm h, fun _ _ => rfl,
          fun _ h => ?_⟩
        · simp [decodePayload, New, hnc, Parse, hm, hne, hmem, hb]
        · obtain ⟨b, h, _⟩ := h
          cases h
      | some body =>
        by_cases hbe : body = ""
        · refine ⟨.error .ErrParsingPayload, ?_, fun h => absurd hm h, fun _ _ => rfl,
            fun _ h => ?_⟩
          · simp [decodePayload, New, hnc, Parse, hm, hne, hmem, hb, hbe]
          · obtain ⟨b, h, hb'⟩ := h
            cases h
            exact absurd hbe hb'
        · have hbl := string_length_pos hbe
          have hbody : ¬ (some body = none ∨ some body = some "") := by
            simp [hbe]
          have htl := htail body hb
          by_cases hs0 : r.XHubSignature = ""
          · refine ⟨.error .ErrMissingHubSignatureHeader, ?_, fun h => absurd hm h,
              fun _ h => absurd h hbody, fun _ _ => ⟨fun _ => rfl, fun h => absurd hs0 h, ?_⟩⟩
            · simp [decodePayload, New, hnc, Parse, hm, hne, hmem, hb, hbl.ne', hlen, hs0,
                checkMAC]
            · intro h5
              rw [hs0] at h5
              exact absurd h5 (by decide)
          · have hsl := string_length_pos hs0
            by_cases hs5 : r.XHubSignature.length < 5
            · refine ⟨.sliceBounds, ?_, fun h => absurd hm h, fun _ h => absurd h hbody,
                fun _ _ => ⟨fun h => absurd h hs0, fun _ _ => rfl, fun h5 => by omega⟩⟩
              simp [decodePayload, New, hnc, Parse, hm, hne, hmem, hb, hbl.ne', hlen, hsl.ne',
                hs5, checkMAC]
            · have hmac : r.XHubSignature.drop 5 ≠ ext.hmacSha1Hex SECRET body :=
                fun h => htl ⟨by omega, h⟩
              refine ⟨.error .ErrHMACVerificationFailed, ?_, fun h => absurd hm h,
                fun _ h => absurd h hbody,
                fun _ _ => ⟨fun h => absurd h hs0, fun _ h => absurd h hs5, fun _ => rfl⟩⟩
              simp [decodePayload, New, hnc, Parse, hm, hne, hmem, hb, hbl.ne', hlen, hsl.ne',
                hs5, hmac, checkMAC]
    · refine ⟨.error .ErrInvalidHTTPMethod, ?_, fun _ => rfl, fun h => absurd h hm,
        fun h => absurd h hm⟩
      simp [decodePayload, New, hnc, Parse, hm]
  obtain ⟨p, hd, hp⟩ := hdec
  exact ⟨p, ParseGithubPayload_of_panic ext ns pns SECRET url r _ hd, hp⟩

/-- Witness of C5 amended: the sample issue delivery under a non-empty
secret fails the HMAC check. -/
theorem bad_signature_rejected_witness :
    "s3cret" ≠ "" ∧ sampleIssueRequest.XGitHubEvent = IssuesEvent ∧
    (∀ body, sampleIssueRequest.Body = some body →
      ¬ (5 ≤ sampleIssueRequest.XHubSignature.length ∧
        sampleIssueRequest.XHubSignature.drop 5 = sampleExtern.hmacSha1Hex "s3cret" body)) ∧
    ParseGithubPayload sampleExtern notifies project_notifies "s3cret" sampleWebhookURL
        sampleIssueRequest =
      { calls := [], sent := [], status := .panicked (.error .ErrHMACVerificationFailed) } :=
  ⟨by decide, by rfl, fun _ _ h => absurd h.2
    (show ¬ (sampleIssueRequest.XHubSignature.drop 5 =
      "0000000000000000000000000000000000000000") by decide),
    by
      obtain ⟨p, hp, _, _, h⟩ := (bad_signature_rejected sampleExtern notifies project_notifies
        "s3cret" sampleWebhookURL sampleIssueRequest (by decide) (Or.inl (by rfl))
        (fun _ _ h => absurd h.2
    (show ¬ (sampleIssueRequest.XHubSignature.drop 5 =
      "0000000000000000000000000000000000000000") by decide))).2
      have h5 := (h (by rfl) ⟨sampleIssueJSON, by rfl, by decide⟩).2.2 (by decide)
      rw [hp, h5]⟩

/-- C8: project-card requests bypass signature verification: two
`project_card` requests with the same non-empty body have the same outcome,
whatever the values of `SECRET` and of the signature header. -/
theorem project_card_bypasses_signature (ext : Extern) (ns : List Notify)
    (pns : List ProjectNotify) (SECRET₁ SECRET₂ url : String) (r₁ r₂ : Request)
    (body : String)
    (he₁ : r₁.XGitHubEvent = ProjectCardEvent) (he₂ : r₂.XGitHubEvent = ProjectCardEvent)
    (hb₁ : r₁.Body = some body) (hb₂ : r₂.Body = some body) (hbody : body ≠ "") :
    ParseGithubPayload ext ns pns SECRET₁ url r₁ = ParseGithubPayload ext ns pns SECRET₂ url r₂ := by
  have hl : (body.length == 0) = false := by simpa using (string_length_pos hbody).ne'
  simp only [ParseGithubPayload, decodePayload, New, he₁, he₂, hb₁, hb₂, hl, beq_self_eq_true,
    if_true]

/-- Witness of C8: the sample card delivery, unsigned under an empty secret
and with a bad signature under a non-empty secret. -/
theorem project_card_bypasses_signature_witness :
    sampleCardRequest.XGitHubEvent = ProjectCardEvent ∧
    signedCardRequest.XGitHubEvent = ProjectCardEvent ∧
    sampleCardRequest.Body = some sampleCardJSON ∧ signedCardRequest.Body = some sampleCardJSON ∧
    sampleCardJSON ≠ "" ∧
    ParseGithubPayload sampleExtern notifies project_notifies "" sampleWebhookURL
        sampleCardRequest =
      ParseGithubPayload sampleExtern notifies project_notifies "s3cret" sampleWebhookURL
        signedCardRequest :=
  ⟨by rfl, by rfl, by rfl, by rfl, by decide,
    project_card_bypasses_signature sampleExtern notifies project_notifies "" "s3cret"
      sampleWebhookURL sampleCardRequest signedCardRequest sampleCardJSON (by rfl) (by rfl)
      (by rfl) (by rfl) (by decide)⟩

/-- C10: building the message fails exactly when the payload is a project-card
payload and the rule is not a `ProjectNotify`, by the type assertion and in no
other way; every call of `SendToSlack` the handler makes pairs an issue or
issue-comment payload with a `Notify` rule or a project-card payload with a
`ProjectNotify` rule and builds its message; so the handler never panics with
a failed type assertion, and for every decoded event and all rule tables it
returns normally or panics with the error of a failed POST. -/
theorem type_assertion_unreachable (ext : Extern) (ns : List Notify)
    (pns : List ProjectNotify) (SECRET url : String) (r : Request) :
    (∀ p n, (buildMessage p n = .error .typeAssertion ↔
        (∃ res, p = .projectCard res) ∧ ¬ ∃ rule, n = .projectNotify rule) ∧
      ∀ e, buildMessage p n = .error e → e = .typeAssertion) ∧
    (∀ c ∈ (ParseGithubPayload ext ns pns SECRET url r).calls,
      WellPaired c ∧ ∃ m, buildMessage c.1 c.2 = .ok m) ∧
    (ParseGithubPayload ext ns pns SECRET url r).status ≠ .panicked .typeAssertion ∧
    (∀ p, decodePayload ext SECRET r = .ok p →
      (ParseGithubPayload ext ns pns SECRET url r).status = .returned ∨
      ∃ e, (ParseGithubPayload ext ns pns SECRET url r).status = .panicked e ∧
        e.isDeliveryFailure = true) := by
  refine ⟨fun p n => ?_, ?_, ?_, fun p hp => ?_⟩
  · cases p <;> cases n <;> simp [buildMessage]
  · cases hd : decodePayload ext SECRET r with
    | error e =>
      rw [ParseGithubPayload_of_panic ext ns pns SECRET url r e hd]
      intro c hc
      cases hc
    | ok p =>
      rw [ParseGithubPayload_of_decode ext ns pns SECRET url r p hd]
      exact (dispatch_calls_status ext ns pns url p).1
  · cases hd : decodePayload ext SECRET r with
    | error e =>
      rw [ParseGithubPayload_of_panic ext ns pns SECRET url r e hd]
      intro h
      injection h with h
      subst h
      exact decodePayload_ne_typeAssertion ext SECRET r hd
    | ok p =>
      rw [ParseGithubPayload_of_decode ext ns pns SECRET url r p hd]
      intro h
      have := (dispatch_calls_status ext ns pns url p).2 _ h
      cases this
  · rw [ParseGithubPayload_of_decode ext ns pns SECRET url r p hp]
    cases hs : (dispatch ext ns pns url p).status with
    | returned => exact Or.inl rfl
    | panicked e => exact Or.inr ⟨e, rfl, (dispatch_calls_status ext ns pns url p).2 e hs⟩

/-- Witness of C10: with the network down and two matching rules, the one
call made is well paired and the handler ends in the error of the client. -/
theorem type_assertion_unreachable_witness :
    (∀ c ∈ (ParseGithubPayload offlineExtern twoNotifies project_notifies "" sampleWebhookURL
        sampleIssueRequest).calls, WellPaired c ∧ ∃ m, buildMessage c.1 c.2 = .ok m) ∧
    (ParseGithubPayload offlineExtern twoNotifies project_notifies "" sampleWebhookURL
      sampleIssueRequest).status ≠ .panicked .typeAssertion ∧
    (ParseGithubPayload offlineExtern twoNotifies project_notifies "" sampleWebhookURL
      sampleIssueRequest).status = .panicked (.error .clientDo) :=
  ⟨(type_assertion_unreachable offlineExtern twoNotifies project_notifies "" sampleWebhookURL
      sampleIssueRequest).2.1,
    (type_assertion_unreachable offlineExtern twoNotifies project_notifies "" sampleWebhookURL
      sampleIssueRequest).2.2.1,
    by rfl⟩

end NotifyMe
